import Mathlib

/-
A Lean model of the Smart Home Hub (src/main.py).

The hub receives topic-addressed MQTT messages, classifies them by topic
substring, mutates two in-memory maps (`devices`, `sensor_data`), writes rows
to four SQLite tables (devices, device_logs, energy_consumption,
security_events) and emits socketio events.  The model below is a shallow
embedding of that code: JSON values become `Val`, parsed JSON objects become
association lists (`Payload`), the database and the in-memory maps are fields
of `HubState`, socketio emits are collected in a list, and the wall clock is
an explicit `now : Nat` parameter standing for CURRENT_TIMESTAMP /
datetime.now().
-/

namespace SolHub

/-- A JSON-like value, as decoded by json.loads. -/
inductive Val where
  | str (s : String)
  | num (n : Int)
  | bool (b : Bool)
  | null
deriving DecidableEq

/-- A parsed JSON object (Python dict): an association list with the usual
dict semantics (lookups return the first binding). -/
abbrev Payload := List (String × Val)

/-- Python d.get(k): the value bound to k, or none when the key is absent. -/
def pget (p : Payload) (k : String) : Option Val :=
  (p.find? (fun kv => kv.1 == k)).map Prod.snd

/-- Python truthiness of d.get(k): None, False, 0 and "" are falsy,
everything else is truthy. -/
def truthy : Option Val → Bool
  | none => false
  | some Val.null => false
  | some (Val.bool b) => b
  | some (Val.num n) => n != 0
  | some (Val.str s) => s != ""

/-- An in-memory map keyed by device id (the globals `devices` and
`sensor_data` in main.py, which are Python dicts). -/
abbrev MemMap := List (String × Payload)

/-- Python dict assignment m[k] = v: replace the binding in place when the
key exists, otherwise append a new binding. -/
def dictSet (m : MemMap) (k : String) (v : Payload) : MemMap :=
  if m.any (fun kv => kv.1 == k) then
    m.map (fun kv => if kv.1 == k then (k, v) else kv)
  else m ++ [(k, v)]

/-- Dict lookup m[k] as an Option: the first binding of the key. -/
def lookupMem : MemMap → String → Option Payload
  | [], _ => none
  | kv :: rest, k => if kv.1 == k then some kv.2 else lookupMem rest k

/-- A row of the `devices` table.  `config` holds the decoded JSON of the
TEXT column (the handlers never touch it). -/
structure DeviceRow where
  id : String
  name : String
  type : String
  room : String
  status : Val
  last_seen : Option Nat
  config : Payload
deriving DecidableEq

/-- A row of the append-only `device_logs` table; `value` holds the decoded
JSON of the TEXT column written with json.dumps. -/
structure DeviceLogRow where
  device_id : String
  action : String
  value : Payload
deriving DecidableEq

/-- A row of the append-only `energy_consumption` table; the inserted
`power_watts` value is taken verbatim from the payload. -/
structure EnergyRow where
  device_id : String
  power_watts : Val
deriving DecidableEq

/-- A row of the append-only `security_events` table. -/
structure SecurityRow where
  sensor_id : String
  event_type : String
  description : String
deriving DecidableEq

/-- True when the value is a non-negative number (the spec's invariant for
persisted powerWatts values). -/
def Val.isNonnegNum : Val → Bool
  | Val.num n => decide (0 ≤ n)
  | _ => false

/-- The hub's mutable state: the two in-memory maps and the four tables. -/
structure HubState where
  devices : MemMap
  sensor_data : MemMap
  deviceRows : List DeviceRow
  deviceLogs : List DeviceLogRow
  energyRows : List EnergyRow
  securityRows : List SecurityRow
deriving DecidableEq

/-- A socketio emit performed while handling a message. -/
inductive Emit where
  | device_update (device_id : String) (data : Payload)
  | security_alert (sensor_id : String) (event : String) (timestamp : Nat)
deriving DecidableEq

/-- The default applied by payload.get('status', 'online') in
handle_device_status. -/
def statusDefault (payload : Payload) : Val :=
  match pget payload "status" with
  | some v => v
  | none => Val.str "online"

/-- handle_device_status(device_id, payload) from main.py: when device_id is
truthy, overwrite devices[device_id], UPDATE the device row's status and
last_seen, INSERT one device_logs row with action status_update, and emit one
device_update event. -/
def handle_device_status (now : Nat) (device_id : Option String) (payload : Payload)
    (s : HubState) : HubState × List Emit :=
  match device_id with
  | none => (s, [])
  | some d =>
    if d = "" then (s, [])
    else
      ({ s with
          devices := dictSet s.devices d payload,
          deviceRows := s.deviceRows.map (fun r =>
            if r.id = d then
              { r with status := statusDefault payload, last_seen := some now }
            else r),
          deviceLogs := s.deviceLogs ++ [⟨d, "status_update", payload⟩] },
       [Emit.device_update d payload])

/-- handle_sensor_data(device_id, payload) from main.py: when device_id is
truthy, overwrite sensor_data[device_id]; when payload.get('motion_detected')
is truthy, INSERT one security_events row and emit one security_alert. -/
def handle_sensor_data (now : Nat) (device_id : Option String) (payload : Payload)
    (s : HubState) : HubState × List Emit :=
  match device_id with
  | none => (s, [])
  | some d =>
    if d = "" then (s, [])
    else
      let s1 := { s with sensor_data := dictSet s.sensor_data d payload }
      if truthy (pget payload "motion_detected") then
        ({ s1 with
            securityRows := s1.securityRows ++
              [⟨d, "motion_detected", "Motion detected by sensor"⟩] },
         [Emit.security_alert d "motion_detected" now])
      else (s1, [])

/-- handle_energy_data(device_id, payload) from main.py: when device_id is
truthy and 'power_watts' is a key of the payload, INSERT one
energy_consumption row with the payload's power_watts value, verbatim. -/
def handle_energy_data (device_id : Option String) (payload : Payload)
    (s : HubState) : HubState × List Emit :=
  match device_id with
  | none => (s, [])
  | some d =>
    if d = "" then (s, [])
    else
      match pget payload "power_watts" with
      | some v => ({ s with energyRows := s.energyRows ++ [⟨d, v⟩] }, [])
      | none => (s, [])

/-- Contiguous-sublist test on character lists, modelling Python's
substring containment test (the needle occurs somewhere in the haystack). -/
def hasSubList (needle : List Char) : List Char → Bool
  | [] => needle.isEmpty
  | c :: rest => needle.isPrefixOf (c :: rest) || hasSubList needle rest

/-- Python sub in topic: substring containment on strings. -/
def containsSub (sub t : String) : Bool :=
  hasSubList sub.data t.data

/-- Python topic.split('/') on character lists: split at every slash,
keeping empty segments. -/
def splitSlash : List Char → List (List Char)
  | [] => [[]]
  | c :: rest =>
    let r := splitSlash rest
    if c = '/' then [] :: r
    else
      match r with
      | [] => [[c]]
      | h :: t => (c :: h) :: t

/-- topic_parts[1] if len(topic_parts) > 1 else None, with
topic_parts = topic.split('/'). -/
def extractDeviceId (topic : String) : Option String :=
  let parts := splitSlash topic.data
  if parts.length > 1 then (parts.get? 1).map String.mk else none

/-- The classes a topic can fall into in on_mqtt_message's if/elif chain. -/
inductive MsgClass where
  | statusMsg
  | sensorMsg
  | energyMsg
  | unroutable
deriving DecidableEq

/-- The if/elif chain of on_mqtt_message: first-match-wins on the
substrings 'status', 'sensor', 'energy' of the whole topic string. -/
def classify (topic : String) : MsgClass :=
  if containsSub "status" topic then MsgClass.statusMsg
  else if containsSub "sensor" topic then MsgClass.sensorMsg
  else if containsSub "energy" topic then MsgClass.energyMsg
  else MsgClass.unroutable

/-- The raw MQTT payload bytes as seen through json.loads: either they parse
to a JSON object, or json.loads raises (modelled as `malformed`). -/
inductive RawPayload where
  | parsed (p : Payload)
  | malformed
deriving DecidableEq

/-- Everything observable about one on_mqtt_message call: the state after
the call, the socketio emits it performed, and whether the broad
except-branch printed an error.  The Python callback itself returns None on
every path, so no error value is ever returned to the caller. -/
structure MsgOutcome where
  state : HubState
  emits : List Emit
  printedError : Bool
deriving DecidableEq

/-- on_mqtt_message from main.py: decode the payload (an undecodable payload
raises, is caught, and an error is printed), extract the device id from the
topic, and dispatch on the topic substrings; a topic matching none of the
three substrings falls through the if/elif chain with no effect at all. -/
def on_mqtt_message (now : Nat) (topic : String) (raw : RawPayload)
    (s : HubState) : MsgOutcome :=
  match raw with
  | RawPayload.malformed => ⟨s, [], true⟩
  | RawPayload.parsed payload =>
    let device_id := extractDeviceId topic
    match classify topic with
    | MsgClass.statusMsg =>
      let r := handle_device_status now device_id payload s
      ⟨r.1, r.2, false⟩
    | MsgClass.sensorMsg =>
      let r := handle_sensor_data now device_id payload s
      ⟨r.1, r.2, false⟩
    | MsgClass.energyMsg =>
      let r := handle_energy_data device_id payload s
      ⟨r.1, r.2, false⟩
    | MsgClass.unroutable => ⟨s, [], false⟩

/-- One action of the translated natural-language result, as read by
ai_command: action.get('device_id') and action.get('command'). -/
structure Action where
  device_id : Option String
  command : Option Payload
deriving DecidableEq

/-- Python truthiness of `if device_id and command:` in ai_command's loop:
both present, the id non-empty and the command dict non-empty. -/
def actTruthy (a : Action) : Bool :=
  match a.device_id, a.command with
  | some d, some c => decide (d ≠ "") && decide (c ≠ [])
  | _, _ => false

/-- The control topic f"smarthome/(device_id)/control". -/
def controlTopic (d : String) : String :=
  "smarthome/" ++ d ++ "/control"

/-- The for-loop over ai_response['actions'] in ai_command, run inside the
surrounding try.  `pubRaises` says whether mqtt_client.publish raises on a
given (topic, body); the loop publishes each truthy action in order, and an
exception on one publish aborts the loop (the remaining actions are never
attempted).  Returns the publishes that happened and whether the loop was
aborted by an exception. -/
def executeActions (pubRaises : String → Payload → Bool) :
    List Action → List (String × Payload) × Bool
  | [] => ([], false)
  | a :: rest =>
    match a.device_id, a.command with
    | some d, some c =>
      if d ≠ "" ∧ c ≠ [] then
        if pubRaises (controlTopic d) c then ([], true)
        else
          let r := executeActions pubRaises rest
          ((controlTopic d, c) :: r.1, r.2)
      else executeActions pubRaises rest
    | _, _ => executeActions pubRaises rest

/-- What ai_command returns to the HTTP caller after the translation has
produced (response, actions): a failure body when the surrounding try caught
an exception, else success with the human-readable response and the FULL
translated action list (not the executed subset; no executed count and no
collected per-action failures exist in the code). -/
inductive AiResult where
  | failure
  | success (response : String) (actions : List Action)
deriving DecidableEq

/-- The tail of ai_command from main.py, after the translation call: run the
action loop, then jsonify.  Also returns the publishes that actually
happened (side effects persist even when the overall result is failure). -/
def ai_command (pubRaises : String → Payload → Bool) (response : String)
    (actions : List Action) : AiResult × List (String × Payload) :=
  let r := executeActions pubRaises actions
  if r.2 then (AiResult.failure, r.1) else (AiResult.success response actions, r.1)

/-- The seeded living-room-light style row used in concrete scenarios:
config carries brightness 100, status is offline. -/
def light1Row : DeviceRow :=
  ⟨"light1", "Light 1", "light", "living_room", Val.str "offline", none,
   [("brightness", Val.num 100)]⟩

/-- A hub state holding exactly the light1 device row and nothing else. -/
def scenarioState : HubState :=
  ⟨[], [], [light1Row], [], [], []⟩

/-- The payload of end-to-end scenario 1. -/
def scenarioPay : Payload :=
  [("status", Val.str "online"), ("brightness", Val.num 80)]

/-- light1's device row after end-to-end scenario 1 at processing time 5:
status online, lastSeen stamped, config untouched. -/
def light1RowAfter : DeviceRow :=
  { light1Row with status := Val.str "online", last_seen := some 5 }

/-- A sensor payload with a truthy motion flag. -/
def motionPay : Payload :=
  [("motion_detected", Val.bool true)]

/-- An energy payload that lacks the power_watts field. -/
def noPowerPay : Payload :=
  [("voltage", Val.num 230)]

/-- An energy payload carrying power_watts 12. -/
def powerPay : Payload :=
  [("power_watts", Val.num 12)]

/-- An energy payload carrying a negative power_watts value. -/
def negPay : Payload :=
  [("power_watts", Val.num (-5))]

/-- A publish-failure oracle under which publishing to d1's control topic
raises and every other publish succeeds. -/
def cexPubRaises : String → Payload → Bool :=
  fun t _ => t == controlTopic "d1"

/-- A translated action targeting device d1. -/
def cexAction1 : Action :=
  ⟨some "d1", some [("power", Val.str "on")]⟩

/-- A translated action targeting device d2. -/
def cexAction2 : Action :=
  ⟨some "d2", some [("power", Val.str "on")]⟩

/-
Helper lemmas about the dict model and the handlers.
-/

/-- Mapping a function that fixes every element of a list is the identity. -/
theorem map_noop {α : Type} (l : List α) (f : α → α) (h : ∀ a ∈ l, f a = a) :
    l.map f = l :=
  (List.map_congr_left h).trans (List.map_id l)

/-- In-place replacement: when the key occurs, rewriting its binding to
(k, v) makes the lookup of k return v. -/
theorem lookupMem_replace_self (k : String) (v : Payload) :
    ∀ m : MemMap, m.any (fun kv => kv.1 == k) = true →
      lookupMem (m.map (fun kv => if kv.1 == k then (k, v) else kv)) k = some v := by
  intro m
  induction m with
  | nil => intro h; simp at h
  | cons a t ih =>
    intro h
    by_cases ha : (a.1 == k) = true
    · simp [lookupMem, ha]
    · have h' : t.any (fun kv => kv.1 == k) = true := by
        simp only [List.any_cons, ha, Bool.false_or] at h
        exact h
      simpa [lookupMem, ha] using ih h'

/-- In-place replacement at key k leaves lookups of any other key alone. -/
theorem lookupMem_replace_other (k k' : String) (v : Payload) (h : k' ≠ k) :
    ∀ m : MemMap,
      lookupMem (m.map (fun kv => if kv.1 == k then (k, v) else kv)) k'
        = lookupMem m k' := by
  intro m
  induction m with
  | nil => rfl
  | cons a t ih =>
    by_cases ha : (a.1 == k) = true
    · have ha' : a.1 = k := by simpa using ha
      have hkk : ¬ (k = k') := fun hk => h hk.symm
      simpa [lookupMem, ha, ha', hkk] using ih
    · by_cases ha2 : (a.1 == k') = true
      · simp [lookupMem, ha, ha2]
      · simpa [lookupMem, ha, ha2] using ih

/-- Appending a fresh binding: when the key is absent, the appended binding
is the one the lookup finds. -/
theorem lookupMem_append_absent (k : String) (v : Payload) :
    ∀ m : MemMap, m.any (fun kv => kv.1 == k) = false →
      lookupMem (m ++ [(k, v)]) k = some v := by
  intro m
  induction m with
  | nil => intro _; simp [lookupMem]
  | cons a t ih =>
    intro h
    simp only [List.any_cons, Bool.or_eq_false_iff] at h
    simpa [lookupMem, h.1] using ih h.2

/-- Appending a binding for k leaves lookups of any other key unchanged. -/
theorem lookupMem_append_other (k k' : String) (v : Payload) (h : k' ≠ k) :
    ∀ m : MemMap, lookupMem (m ++ [(k, v)]) k' = lookupMem m k' := by
  intro m
  induction m with
  | nil =>
    have hkk : ¬ (k = k') := fun hk => h hk.symm
    simp [lookupMem, hkk]
  | cons a t ih =>
    by_cases ha : (a.1 == k') = true
    · simp [lookupMem, ha]
    · simpa [lookupMem, ha] using ih

/-- Python dict assignment: lookup of the assigned key returns the new value. -/
theorem lookupMem_dictSet_self (m : MemMap) (k : String) (v : Payload) :
    lookupMem (dictSet m k v) k = some v := by
  unfold dictSet
  by_cases h : m.any (fun kv => kv.1 == k) = true
  · rw [if_pos h]
    exact lookupMem_replace_self k v m h
  · rw [if_neg h]
    exact lookupMem_append_absent k v m (Bool.eq_false_iff.mpr h)

/-- Python dict assignment: lookups of all other keys are unchanged. -/
theorem lookupMem_dictSet_other (m : MemMap) (k k' : String) (v : Payload)
    (h : k' ≠ k) : lookupMem (dictSet m k v) k' = lookupMem m k' := by
  unfold dictSet
  by_cases hany : m.any (fun kv => kv.1 == k) = true
  · rw [if_pos hany]
    exact lookupMem_replace_other k k' v h m
  · rw [if_neg hany]
    exact lookupMem_append_other k k' v h m

/-- A falsy device id (None or the empty string) makes the status handler a
no-op. -/
theorem hds_noop (now : Nat) (p : Payload) (s : HubState) (d : Option String)
    (h : d = none ∨ d = some "") :
    handle_device_status now d p s = (s, []) := by
  rcases h with h | h <;> subst h <;> simp [handle_device_status]

/-- A falsy device id (None or the empty string) makes the sensor handler a
no-op. -/
theorem hsd_noop (now : Nat) (p : Payload) (s : HubState) (d : Option String)
    (h : d = none ∨ d = some "") :
    handle_sensor_data now d p s = (s, []) := by
  rcases h with h | h <;> subst h <;> simp [handle_sensor_data]

/-- A falsy device id (None or the empty string) makes the energy handler a
no-op. -/
theorem hed_noop (p : Payload) (s : HubState) (d : Option String)
    (h : d = none ∨ d = some "") :
    handle_energy_data d p s = (s, []) := by
  rcases h with h | h <;> subst h <;> simp [handle_energy_data]

/-- When no truthy action's publish raises, the loop publishes exactly the
truthy actions, in order, and is not aborted. -/
theorem executeActions_no_raise (pf : String → Payload → Bool) :
    ∀ acts : List Action,
      (∀ a ∈ acts, ∀ d c, a.device_id = some d → a.command = some c →
          d ≠ "" → c ≠ [] → pf (controlTopic d) c = false) →
      executeActions pf acts
        = ((acts.filter actTruthy).map
            (fun a => (controlTopic (a.device_id.getD ""), a.command.getD [])), false) := by
  intro acts
  induction acts with
  | nil => intro _; rfl
  | cons a rest ih =>
    intro hok
    have ihr := ih (fun a' ha' => hok a' (List.mem_cons_of_mem _ ha'))
    rcases a with ⟨did, cmd⟩
    rcases did with _ | d
    · simpa [executeActions, actTruthy] using ihr
    rcases cmd with _ | c
    · simpa [executeActions, actTruthy] using ihr
    by_cases hdc : d ≠ "" ∧ c ≠ []
    · have hpf := hok _ (List.mem_cons_self _ _) d c rfl rfl hdc.1 hdc.2
      simp [executeActions, actTruthy, hdc, hdc.1, hdc.2, hpf, ihr]
    · have hfalse : actTruthy ⟨some d, some c⟩ = false := by
        simp only [actTruthy, Bool.and_eq_false_iff, decide_eq_false_iff_not]
        by_cases hd : d = ""
        · exact Or.inl (fun hne => hne hd)
        · right
          rcases not_and_or.mp hdc with h1 | h2
          · exact absurd hd (by simpa using h1)
          · exact fun hne => hne (by simpa using h2)
      simpa [executeActions, hdc, hfalse] using ihr

/-- An exception raised while publishing the first truthy action aborts the
loop: nothing is published and the remaining actions are never attempted. -/
theorem executeActions_raise_head (pf : String → Payload → Bool) (d : String)
    (c : Payload) (rest : List Action) (hd : d ≠ "") (hc : c ≠ [])
    (hpf : pf (controlTopic d) c = true) :
    executeActions pf (Action.mk (some d) (some c) :: rest) = ([], true) := by
  simp [executeActions, hd, hc, hpf]

/-- C1 counterexample: with two translated actions where publishing the
first raises, the loop publishes nothing at all — the second action, which
publishes fine on its own under the same oracle, is never attempted — and
ai_command returns a bare failure body with no executed count and no
collected per-action failures.  This refutes the claim that a failure on
action k does not prevent actions k+1..N from being attempted and that the
result reports an executed count. -/
theorem batch_abort_counterexample :
    executeActions cexPubRaises [cexAction1, cexAction2] = ([], true)
    ∧ executeActions cexPubRaises [cexAction2]
        = ([(controlTopic "d2", [("power", Val.str "on")])], false)
    ∧ ai_command cexPubRaises "ok" [cexAction1, cexAction2]
        = (AiResult.failure, []) :=
  ⟨by decide, by decide, by decide⟩

/-- C1, amended: the action loop in ai_command attempts the translated
actions in order, skipping those whose device id or command is falsy; when
no publish raises, every truthy action is published, in order, and the call
reports success together with the full translated action list (there is no
executed count and no per-action failure collection); when publishing a
truthy action raises, the remaining actions are not attempted and the whole
call returns a single failure body. -/
theorem batch_dispatch_behavior (pf : String → Payload → Bool) (resp : String)
    (acts : List Action) :
    ((∀ a ∈ acts, ∀ d c, a.device_id = some d → a.command = some c →
        d ≠ "" → c ≠ [] → pf (controlTopic d) c = false) →
      ai_command pf resp acts
        = (AiResult.success resp acts,
           (acts.filter actTruthy).map
             (fun a => (controlTopic (a.device_id.getD ""), a.command.getD []))))
    ∧ (∀ d c rest, d ≠ "" → c ≠ [] → pf (controlTopic d) c = true →
        ai_command pf resp (Action.mk (some d) (some c) :: rest)
          = (AiResult.failure, [])) := by
  constructor
  · intro hok
    have h := executeActions_no_raise pf acts hok
    simp [ai_command, h]
  · intro d c rest hd hc hpf
    have h := executeActions_raise_head pf d c rest hd hc hpf
    simp [ai_command, h]

/-- C1 witness: a concrete run of the amended theorem — a batch of one
publishable action succeeds with that publish, and a batch whose first
action raises returns failure with nothing published. -/
theorem batch_dispatch_behavior_witness :
    ai_command cexPubRaises "ok" [cexAction2]
        = (AiResult.success "ok" [cexAction2],
           ([cexAction2].filter actTruthy).map
             (fun a => (controlTopic (a.device_id.getD ""), a.command.getD [])))
    ∧ ai_command cexPubRaises "ok" [cexAction1, cexAction2]
        = (AiResult.failure, []) := by
  constructor
  · refine (batch_dispatch_behavior cexPubRaises "ok" [cexAction2]).1 ?_
    intro a ha d c hdid hcmd hd hc
    have haeq : a = cexAction2 := by simpa using ha
    subst haeq
    have hdid2 : (some "d2" : Option String) = some d := hdid
    have hdeq : "d2" = d := by injection hdid2
    subst hdeq
    show (controlTopic "d2" == controlTopic "d1") = false
    decide
  · exact (batch_dispatch_behavior cexPubRaises "ok" [cexAction1, cexAction2]).2
      "d1" [("power", Val.str "on")] [cexAction2] (by decide) (by decide) (by decide)

/-- C4: topic classification is substring based with first-match-wins
priority: status, then sensor, then energy, else unroutable; in particular
a topic containing both status and sensor is classified as a status
message. -/
theorem topic_classification_priority (t : String) :
    (containsSub "status" t = true → classify t = MsgClass.statusMsg)
    ∧ (containsSub "status" t = false → containsSub "sensor" t = true →
        classify t = MsgClass.sensorMsg)
    ∧ (containsSub "status" t = false → containsSub "sensor" t = false →
        containsSub "energy" t = true → classify t = MsgClass.energyMsg)
    ∧ (containsSub "status" t = false → containsSub "sensor" t = false →
        containsSub "energy" t = false → classify t = MsgClass.unroutable)
    ∧ (containsSub "status" t = true → containsSub "sensor" t = true →
        classify t = MsgClass.statusMsg) := by
  refine ⟨?_, ?_, ?_, ?_, ?_⟩
  · intro h1; simp [classify, h1]
  · intro h1 h2; simp [classify, h1, h2]
  · intro h1 h2 h3; simp [classify, h1, h2, h3]
  · intro h1 h2 h3; simp [classify, h1, h2, h3]
  · intro h1 _; simp [classify, h1]

/-- C4 witness: a topic containing both status and sensor substrings is
classified as a status message. -/
theorem topic_classification_priority_witness :
    containsSub "status" "a/b/status_sensor" = true
    ∧ containsSub "sensor" "a/b/status_sensor" = true
    ∧ classify "a/b/status_sensor" = MsgClass.statusMsg :=
  ⟨by decide, by decide,
   (topic_classification_priority "a/b/status_sensor").2.2.2.2 (by decide) (by decide)⟩

/-- C2 counterexample: running end-to-end scenario 1 (status online,
brightness 80 for known device light1) leaves the persisted row's config
untouched: it still reads brightness 100, and no row of the devices table
reflects the payload's brightness 80.  The UPDATE in handle_device_status
only touches status and last_seen. -/
theorem persisted_config_counterexample :
    (on_mqtt_message 5 "home/light1/status" (RawPayload.parsed scenarioPay)
        scenarioState).state.deviceRows = [light1RowAfter]
    ∧ pget light1RowAfter.config "brightness" = some (Val.num 100)
    ∧ ¬ (∃ r ∈ (on_mqtt_message 5 "home/light1/status"
          (RawPayload.parsed scenarioPay) scenarioState).state.deviceRows,
        pget r.config "brightness" = some (Val.num 80)) :=
  ⟨by decide, by decide, by decide⟩

/-- C2, amended: after a successful ingest of a status message for a known
device, the persisted row's status equals the payload's status (via the
online default) and lastSeen is stamped, the payload's fields (such as
brightness 80) are visible in the in-memory status entry — which is replaced
by the full payload — while the persisted config column is left unchanged,
and exactly one device_update broadcast fires carrying that payload. -/
theorem status_ingest_known_device (now : Nat) (t : String) (d : String)
    (p : Payload) (s : HubState) (ht : classify t = MsgClass.statusMsg)
    (hid : extractDeviceId t = some d) (hd : d ≠ "") :
    (∀ r ∈ s.deviceRows, r.id = d →
      { r with status := statusDefault p, last_seen := some now }
        ∈ (on_mqtt_message now t (RawPayload.parsed p) s).state.deviceRows)
    ∧ (on_mqtt_message now t (RawPayload.parsed p) s).state.deviceRows.map
        DeviceRow.config = s.deviceRows.map DeviceRow.config
    ∧ lookupMem (on_mqtt_message now t (RawPayload.parsed p) s).state.devices d
        = some p
    ∧ (on_mqtt_message now t (RawPayload.parsed p) s).emits
        = [Emit.device_update d p] := by
  have hmain : handle_device_status now (some d) p s
      = ({ s with
            devices := dictSet s.devices d p,
            deviceRows := s.deviceRows.map (fun r =>
              if r.id = d then
                { r with status := statusDefault p, last_seen := some now }
              else r),
            deviceLogs := s.deviceLogs ++ [⟨d, "status_update", p⟩] },
         [Emit.device_update d p]) := by
    simp [handle_device_status, hd]
  have hcall : on_mqtt_message now t (RawPayload.parsed p) s
      = ⟨(handle_device_status now (some d) p s).1,
         (handle_device_status now (some d) p s).2, false⟩ := by
    simp [on_mqtt_message, ht, hid]
  rw [hcall, hmain]
  refine ⟨?_, ?_, lookupMem_dictSet_self _ _ _, rfl⟩
  · intro r hr hidr
    exact List.mem_map.mpr ⟨r, hr, by simp [hidr]⟩
  · show (s.deviceRows.map _).map DeviceRow.config = _
    rw [List.map_map]
    exact List.map_congr_left (fun r _ => by by_cases h : r.id = d <;> simp [h])

/-- C2 witness: the amended theorem at end-to-end scenario 1. -/
theorem status_ingest_known_device_witness :
    classify "home/light1/status" = MsgClass.statusMsg
    ∧ extractDeviceId "home/light1/status" = some "light1"
    ∧ lookupMem (on_mqtt_message 5 "home/light1/status"
        (RawPayload.parsed scenarioPay) scenarioState).state.devices "light1"
        = some scenarioPay
    ∧ (on_mqtt_message 5 "home/light1/status"
        (RawPayload.parsed scenarioPay) scenarioState).emits
        = [Emit.device_update "light1" scenarioPay] :=
  ⟨by decide, by decide,
   (status_ingest_known_device 5 "home/light1/status" "light1" scenarioPay
      scenarioState (by decide) (by decide) (by decide)).2.2.1,
   (status_ingest_known_device 5 "home/light1/status" "light1" scenarioPay
      scenarioState (by decide) (by decide) (by decide)).2.2.2⟩

/-- C3 counterexample: a message on a topic matching none of the three
shapes is dropped with no effect and no signal of any kind — the outcome is
identical to that of a successful no-op (a status topic with no device
segment).  No UnroutableTopic error is returned to the caller, refuting the
claim that such failures are typed results and never silently discarded. -/
theorem unroutable_silently_dropped_counterexample :
    on_mqtt_message 0 "foo/bar/other" (RawPayload.parsed scenarioPay) scenarioState
        = ⟨scenarioState, [], false⟩
    ∧ on_mqtt_message 0 "foo/bar/other" (RawPayload.parsed scenarioPay) scenarioState
        = on_mqtt_message 0 "status" (RawPayload.parsed scenarioPay) scenarioState :=
  ⟨by decide, by decide⟩

/-- C3, amended: ingest never returns a typed error to its caller.  An
unparseable payload raises inside the handler, is caught by the broad
except, and only an error print happens — no state change, no broadcast.  A
topic matching none of the three shapes falls through the if/elif chain and
is silently ignored: no effects, no print, no error value.  A missing second
path segment is likewise not an error: the chosen handler is invoked with a
None device id and no-ops. -/
theorem ingest_error_handling (now : Nat) (t : String) (s : HubState) :
    on_mqtt_message now t RawPayload.malformed s = ⟨s, [], true⟩
    ∧ (classify t = MsgClass.unroutable →
        ∀ p, on_mqtt_message now t (RawPayload.parsed p) s = ⟨s, [], false⟩) := by
  constructor
  · rfl
  · intro h p
    simp [on_mqtt_message, h]

/-- C3 witness: the amended theorem at a malformed payload and at an
unroutable topic. -/
theorem ingest_error_handling_witness :
    on_mqtt_message 0 "foo/bar/other" RawPayload.malformed scenarioState
        = ⟨scenarioState, [], true⟩
    ∧ classify "foo/bar/other" = MsgClass.unroutable
    ∧ on_mqtt_message 0 "foo/bar/other" (RawPayload.parsed motionPay) scenarioState
        = ⟨scenarioState, [], false⟩ :=
  ⟨(ingest_error_handling 0 "foo/bar/other" scenarioState).1, by decide,
   (ingest_error_handling 0 "foo/bar/other" scenarioState).2 (by decide) motionPay⟩

/-- C5: for every status message with a non-empty device id, the in-memory
entry for that device is replaced by the parsed payload (full replace; other
entries untouched), every device row matching the id gets status set to the
payload's status field (defaulting to the literal online) and lastSeen
stamped to the processing time while non-matching rows survive unchanged,
exactly one device log entry with action status_update carrying the payload
is appended, and exactly one device_update notification is emitted. -/
theorem status_branch_effects (now : Nat) (d : String) (p : Payload)
    (s : HubState) (hd : d ≠ "") :
    lookupMem (handle_device_status now (some d) p s).1.devices d = some p
    ∧ (∀ k, k ≠ d →
        lookupMem (handle_device_status now (some d) p s).1.devices k
          = lookupMem s.devices k)
    ∧ (∀ r ∈ s.deviceRows, r.id = d →
        { r with status := statusDefault p, last_seen := some now }
          ∈ (handle_device_status now (some d) p s).1.deviceRows)
    ∧ (∀ r ∈ s.deviceRows, r.id ≠ d →
        r ∈ (handle_device_status now (some d) p s).1.deviceRows)
    ∧ (∀ v, pget p "status" = some v → statusDefault p = v)
    ∧ (pget p "status" = none → statusDefault p = Val.str "online")
    ∧ (handle_device_status now (some d) p s).1.deviceLogs
        = s.deviceLogs ++ [⟨d, "status_update", p⟩]
    ∧ (handle_device_status now (some d) p s).2 = [Emit.device_update d p] := by
  have hmain : handle_device_status now (some d) p s
      = ({ s with
            devices := dictSet s.devices d p,
            deviceRows := s.deviceRows.map (fun r =>
              if r.id = d then
                { r with status := statusDefault p, last_seen := some now }
              else r),
            deviceLogs := s.deviceLogs ++ [⟨d, "status_update", p⟩] },
         [Emit.device_update d p]) := by
    simp [handle_device_status, hd]
  rw [hmain]
  refine ⟨lookupMem_dictSet_self _ _ _,
    fun k hk => lookupMem_dictSet_other _ _ _ _ hk, ?_, ?_, ?_, ?_, rfl, rfl⟩
  · intro r hr hidr
    exact List.mem_map.mpr ⟨r, hr, by simp [hidr]⟩
  · intro r hr hidr
    exact List.mem_map.mpr ⟨r, hr, by simp [hidr]⟩
  · intro v hv
    simp [statusDefault, hv]
  · intro hv
    simp [statusDefault, hv]

/-- C5 witness: the theorem at scenario 1's device, payload and state. -/
theorem status_branch_effects_witness :
    ("light1" : String) ≠ ""
    ∧ lookupMem (handle_device_status 5 (some "light1") scenarioPay
        scenarioState).1.devices "light1" = some scenarioPay
    ∧ (handle_device_status 5 (some "light1") scenarioPay scenarioState).2
        = [Emit.device_update "light1" scenarioPay] :=
  ⟨by decide,
   (status_branch_effects 5 "light1" scenarioPay scenarioState (by decide)).1,
   (status_branch_effects 5 "light1" scenarioPay scenarioState
      (by decide)).2.2.2.2.2.2.2⟩

/-- C6: for every sensor message with a non-empty device id, a truthy
motion_detected field yields exactly one security_events row with type
motion_detected and exactly one security_alert emit carrying the sensor id,
event and timestamp; an absent or falsy field (truthy returns false on both)
yields no security row and no emit; and in neither case is a device log
entry written. -/
theorem sensor_branch_effects (now : Nat) (d : String) (p : Payload)
    (s : HubState) (hd : d ≠ "") :
    (truthy (pget p "motion_detected") = true →
      (handle_sensor_data now (some d) p s).1.securityRows
          = s.securityRows ++ [⟨d, "motion_detected", "Motion detected by sensor"⟩]
      ∧ (handle_sensor_data now (some d) p s).2
          = [Emit.security_alert d "motion_detected" now])
    ∧ (truthy (pget p "motion_detected") = false →
      (handle_sensor_data now (some d) p s).1.securityRows = s.securityRows
      ∧ (handle_sensor_data now (some d) p s).2 = [])
    ∧ (handle_sensor_data now (some d) p s).1.deviceLogs = s.deviceLogs := by
  by_cases hm : truthy (pget p "motion_detected") = true
  · have hmain : handle_sensor_data now (some d) p s
        = ({ s with
              sensor_data := dictSet s.sensor_data d p,
              securityRows := s.securityRows ++
                [⟨d, "motion_detected", "Motion detected by sensor"⟩] },
           [Emit.security_alert d "motion_detected" now]) := by
      simp [handle_sensor_data, hd, hm]
    rw [hmain]
    refine ⟨fun _ => ⟨rfl, rfl⟩, fun hf => ?_, rfl⟩
    rw [hm] at hf
    cases hf
  · have hmain : handle_sensor_data now (some d) p s
        = ({ s with sensor_data := dictSet s.sensor_data d p }, []) := by
      simp [handle_sensor_data, hd, hm]
    rw [hmain]
    exact ⟨fun ht => absurd ht hm, fun _ => ⟨rfl, rfl⟩, rfl⟩

/-- C6 witness: the theorem at a motion payload for sensor motion1 — one
security row and one alert; and at a payload without the motion field —
none. -/
theorem sensor_branch_effects_witness :
    ("motion1" : String) ≠ ""
    ∧ truthy (pget motionPay "motion_detected") = true
    ∧ (handle_sensor_data 7 (some "motion1") motionPay scenarioState).1.securityRows
        = scenarioState.securityRows ++
          [⟨"motion1", "motion_detected", "Motion detected by sensor"⟩]
    ∧ (handle_sensor_data 7 (some "motion1") motionPay scenarioState).2
        = [Emit.security_alert "motion1" "motion_detected" 7]
    ∧ (handle_sensor_data 7 (some "motion1") noPowerPay scenarioState).1.securityRows
        = scenarioState.securityRows :=
  ⟨by decide, by decide,
   ((sensor_branch_effects 7 "motion1" motionPay scenarioState (by decide)).1
      (by decide)).1,
   ((sensor_branch_effects 7 "motion1" motionPay scenarioState (by decide)).1
      (by decide)).2,
   ((sensor_branch_effects 7 "motion1" noPowerPay scenarioState (by decide)).2.1
      (by decide)).1⟩

/-- C7: a status message for a device id absent from the devices table
leaves the table entirely unchanged, while the status_update log entry is
still appended and the device_update notification still fires. -/
theorem status_unknown_device_frame (now : Nat) (d : String) (p : Payload)
    (s : HubState) (hd : d ≠ "") (habs : ∀ r ∈ s.deviceRows, r.id ≠ d) :
    (handle_device_status now (some d) p s).1.deviceRows = s.deviceRows
    ∧ (handle_device_status now (some d) p s).1.deviceLogs
        = s.deviceLogs ++ [⟨d, "status_update", p⟩]
    ∧ (handle_device_status now (some d) p s).2 = [Emit.device_update d p] := by
  have hmain : handle_device_status now (some d) p s
      = ({ s with
            devices := dictSet s.devices d p,
            deviceRows := s.deviceRows.map (fun r =>
              if r.id = d then
                { r with status := statusDefault p, last_seen := some now }
              else r),
            deviceLogs := s.deviceLogs ++ [⟨d, "status_update", p⟩] },
         [Emit.device_update d p]) := by
    simp [handle_device_status, hd]
  rw [hmain]
  exact ⟨map_noop _ _ (fun r hr => if_neg (habs r hr)), rfl, rfl⟩

/-- C7 witness: the theorem at a ghost device id against the scenario state
(whose only row is light1). -/
theorem status_unknown_device_frame_witness :
    ("ghost" : String) ≠ ""
    ∧ (∀ r ∈ scenarioState.deviceRows, r.id ≠ "ghost")
    ∧ (handle_device_status 9 (some "ghost") scenarioPay scenarioState).1.deviceRows
        = scenarioState.deviceRows
    ∧ (handle_device_status 9 (some "ghost") scenarioPay scenarioState).1.deviceLogs
        = scenarioState.deviceLogs ++ [⟨"ghost", "status_update", scenarioPay⟩] :=
  ⟨by decide, by decide,
   (status_unknown_device_frame 9 "ghost" scenarioPay scenarioState (by decide)
      (by decide)).1,
   (status_unknown_device_frame 9 "ghost" scenarioPay scenarioState (by decide)
      (by decide)).2.1⟩

/-- C8: for every energy message with a non-empty device id, a payload
without the power_watts key makes the handler a complete no-op that still
succeeds (no error exists), while a payload carrying the key appends exactly
one energy row with that value; in both cases the in-memory maps are
untouched and no notification is emitted (the full state/emit equations show
this). -/
theorem energy_branch_effects (d : String) (p : Payload) (s : HubState)
    (hd : d ≠ "") :
    (pget p "power_watts" = none → handle_energy_data (some d) p s = (s, []))
    ∧ (∀ v, pget p "power_watts" = some v →
        handle_energy_data (some d) p s
          = ({ s with energyRows := s.energyRows ++ [⟨d, v⟩] }, [])) := by
  constructor
  · intro h
    simp [handle_energy_data, hd, h]
  · intro v h
    simp [handle_energy_data, hd, h]

/-- C8 witness: the theorem at a payload lacking power_watts (no-op) and at
one carrying power_watts 12 (one appended row, no emits). -/
theorem energy_branch_effects_witness :
    ("meter1" : String) ≠ ""
    ∧ pget noPowerPay "power_watts" = none
    ∧ handle_energy_data (some "meter1") noPowerPay scenarioState
        = (scenarioState, [])
    ∧ pget powerPay "power_watts" = some (Val.num 12)
    ∧ handle_energy_data (some "meter1") powerPay scenarioState
        = ({ scenarioState with
              energyRows := scenarioState.energyRows ++ [⟨"meter1", Val.num 12⟩] },
           []) :=
  ⟨by decide, by decide,
   (energy_branch_effects "meter1" noPowerPay scenarioState (by decide)).1
     (by decide),
   by decide,
   (energy_branch_effects "meter1" powerPay scenarioState (by decide)).2
     (Val.num 12) (by decide)⟩

/-- C9 counterexample: an energy message carrying power_watts -5 is
persisted verbatim: the appended row's value is the negative number -5,
which is not a non-negative number.  The handler performs no range check,
refuting the invariant that every persisted energy row has a non-negative
powerWatts. -/
theorem energy_nonneg_counterexample :
    (handle_energy_data (some "dev1") negPay scenarioState).1.energyRows
        = [⟨"dev1", Val.num (-5)⟩]
    ∧ Val.isNonnegNum (Val.num (-5)) = false :=
  ⟨by decide, by decide⟩

/-- C9, amended: the hub appends the payload's power_watts value verbatim,
with no validation of sign or numeric type; rows with negative powerWatts
can therefore be persisted, and non-negativity holds only if senders only
ever send non-negative values. -/
theorem energy_power_stored_verbatim (d : String) (p : Payload) (s : HubState)
    (v : Val) (hd : d ≠ "") (hv : pget p "power_watts" = some v) :
    (handle_energy_data (some d) p s).1.energyRows = s.energyRows ++ [⟨d, v⟩] := by
  simp [handle_energy_data, hd, hv]

/-- C9 witness: the amended theorem at the negative payload. -/
theorem energy_power_stored_verbatim_witness :
    ("dev1" : String) ≠ ""
    ∧ pget negPay "power_watts" = some (Val.num (-5))
    ∧ (handle_energy_data (some "dev1") negPay scenarioState).1.energyRows
        = scenarioState.energyRows ++ [⟨"dev1", Val.num (-5)⟩] :=
  ⟨by decide, by decide,
   energy_power_stored_verbatim "dev1" negPay scenarioState (Val.num (-5))
     (by decide) (by decide)⟩

/-- C10: an inbound message whose topic yields a missing device id (no
second path segment) or an empty one short-circuits every branch: the state
is returned unchanged, no emit fires, and no error is printed — a
successful no-op, not an error. -/
theorem empty_device_id_noop (now : Nat) (t : String) (p : Payload)
    (s : HubState)
    (h : extractDeviceId t = none ∨ extractDeviceId t = some "") :
    on_mqtt_message now t (RawPayload.parsed p) s = ⟨s, [], false⟩ := by
  have h1 := hds_noop now p s (extractDeviceId t) h
  have h2 := hsd_noop now p s (extractDeviceId t) h
  have h3 := hed_noop p s (extractDeviceId t) h
  unfold on_mqtt_message
  cases hc : classify t <;> simp [h1, h2, h3]

/-- C10 witness: the theorem at a topic with an empty second segment and at
a topic with no second segment at all. -/
theorem empty_device_id_noop_witness :
    extractDeviceId "home//status" = some ""
    ∧ on_mqtt_message 0 "home//status" (RawPayload.parsed scenarioPay) scenarioState
        = ⟨scenarioState, [], false⟩
    ∧ extractDeviceId "sensor" = none
    ∧ on_mqtt_message 0 "sensor" (RawPayload.parsed motionPay) scenarioState
        = ⟨scenarioState, [], false⟩ :=
  ⟨by decide,
   empty_device_id_noop 0 "home//status" scenarioPay scenarioState (by decide),
   by decide,
   empty_device_id_noop 0 "sensor" motionPay scenarioState (by decide)⟩

end SolHub
